import Mathlib

/-!
Shallow embedding of the CLI Resolution & Lifecycle Manager of the
zenco-vscode extension (`src/cliManager.ts`), together with proofs of the
specification claims about it.

Modelling conventions:
* Shell execution (`execAsync`), filesystem existence checks, environment
  variables and user prompt responses are captured by an `Env` record of
  pure functions.  `exec` and `existsSync` additionally receive the list of
  texts sent so far to interactive terminals, so that commands run in a
  terminal (e.g. `pipx install zenco`) can change the outcome of later
  probes, as they do in reality.
* Observable effects (terminal `sendText`, notification messages, opening
  the manual-instruction document) are threaded through a `World` record.
* The persisted `zenco.installPromptDismissed` flag (`context.globalState`)
  is threaded separately as a `Bool`, since it is only touched by
  `ensureCliInstalled`.
* JavaScript `Number(...)` is modelled on the subset of inputs that can
  arise from splitting a version string on `.` (optionally signed digit
  strings, the empty string, everything else is NaN); JS `NaN` is `none`.
* Node's `path.join` is modelled as separator-joining of the non-empty
  segments (normalisation of `.`/`..` segments is irrelevant here: joined
  paths are only consumed by the opaque `existsSync`).
-/

/-! ## JavaScript string primitives -/

/-- Whitespace recognised by JS `String.prototype.trim` (the subset that
can occur in command output). -/
def isJsWhitespace (c : Char) : Bool :=
  c = ' ' || c = '\t' || c = '\n' || c = '\r' || c = '\x0b' || c = '\x0c'

/-- `trim` on character lists: drop whitespace from both ends. -/
def trimChars (cs : List Char) : List Char :=
  ((cs.dropWhile isJsWhitespace).reverse.dropWhile isJsWhitespace).reverse

/-- JS `s.trim()`. -/
def trimJs (s : String) : String :=
  String.mk (trimChars s.data)

/-- Substring test on character lists (JS `String.prototype.includes`). -/
def hasSub (needle : List Char) : List Char → Bool
  | [] => needle.isEmpty
  | c :: cs => needle.isPrefixOf (c :: cs) || hasSub needle cs

/-- JS `s.includes(sub)`. -/
def includesStr (s sub : String) : Bool :=
  hasSub sub.data s.data

/-- Longest digit run at the front of a character list (regex `\d+`,
which is greedy). -/
def digitSpan : List Char → List Char × List Char
  | [] => ([], [])
  | c :: cs =>
    if c.isDigit then
      let p := digitSpan cs
      (c :: p.1, p.2)
    else ([], c :: cs)

/-- Numeric value of a digit string. -/
def digitsVal (cs : List Char) : Nat :=
  cs.foldl (fun a c => 10 * a + (c.toNat - 48)) 0

/-- JS `s.split('.')` on character lists. -/
def splitDot : List Char → List (List Char)
  | [] => [[]]
  | c :: cs =>
    if c = '.' then [] :: splitDot cs
    else
      match splitDot cs with
      | [] => [[c]]
      | h :: t => (c :: h) :: t

/-- JS `Number(s)` on the inputs reachable here: trims whitespace, the
empty string is `0`, an optionally signed digit string is its value, and
anything else is NaN (`none`). -/
def jsNumber (s : List Char) : Option Int :=
  match trimChars s with
  | [] => some 0
  | '-' :: rest =>
    if !rest.isEmpty && rest.all Char.isDigit then some (-(digitsVal rest : Int)) else none
  | '+' :: rest =>
    if !rest.isEmpty && rest.all Char.isDigit then some ((digitsVal rest : Int)) else none
  | t => if t.all Char.isDigit then some ((digitsVal t : Int)) else none

/-! ## Version comparison (`compareVersions`, cliManager.ts lines 571-584) -/

/-- `parts[i] || 0`: an out-of-range index (`undefined`) and NaN both
collapse to `0`. -/
def versionComponent (parts : List (Option Int)) (i : Nat) : Int :=
  match parts.get? i with
  | some (some n) => n
  | _ => 0

/-- The `for (let i = 0; i < 3; i++)` comparison loop, over an explicit
index list. -/
def cmpFrom (p1 p2 : List (Option Int)) : List Nat → Int
  | [] => 0
  | i :: rest =>
    let n1 := versionComponent p1 i
    let n2 := versionComponent p2 i
    if n2 < n1 then 1
    else if n1 < n2 then -1
    else cmpFrom p1 p2 rest

/-- `compareVersions(v1, v2)`: split on `.`, map JS `Number`, compare the
first three components. -/
def compareVersions (v1 v2 : String) : Int :=
  cmpFrom ((splitDot v1.data).map jsNumber) ((splitDot v2.data).map jsNumber) [0, 1, 2]

/-- `MINIMUM_ZENCO_VERSION` constant (cliManager.ts line 12). -/
def MINIMUM_ZENCO_VERSION : String := "0.1.0"

/-! ## Version banner pattern (`/Zenco AI v(\d+\.\d+\.\d+)/`) -/

/-- Match `\d+\.\d+\.\d+` at the front of the input, returning the capture
group.  Greedy `\d+` followed by a literal `.` needs no backtracking. -/
def matchVersionSuffix (cs : List Char) : Option (List Char) :=
  if (digitSpan cs).1.isEmpty then none
  else
    match (digitSpan cs).2 with
    | '.' :: r2 =>
      if (digitSpan r2).1.isEmpty then none
      else
        match (digitSpan r2).2 with
        | '.' :: r4 =>
          if (digitSpan r4).1.isEmpty then none
          else some ((digitSpan cs).1 ++ '.' :: ((digitSpan r2).1 ++ '.' :: (digitSpan r4).1))
        | _ => none
    | _ => none

/-- The literal part of the banner pattern. -/
def bannerChars : List Char := "Zenco AI v".data

/-- Leftmost match of the banner pattern, returning the captured version
characters (JS `stdout.match(...)` semantics). -/
def findVersion : List Char → Option (List Char)
  | [] => none
  | c :: cs =>
    if bannerChars.isPrefixOf (c :: cs) then
      match matchVersionSuffix ((c :: cs).drop bannerChars.length) with
      | some v => some v
      | none => findVersion cs
    else findVersion cs

/-- `stdout.match(/Zenco AI v(\d+\.\d+\.\d+)/)`, returning the capture. -/
def versionMatch (s : String) : Option String :=
  (findVersion s.data).map String.mk

/-! ## External capabilities and observable state -/

/-- The host environment: shell execution, filesystem probes, environment
variables, host platform, and the user's responses to prompts.  `exec` and
`existsSync` receive the list of texts sent so far to interactive
terminals, so terminal-driven installs can change later probe results.
`exec` returns the stdout of a successful command, or an error for a
non-zero exit / spawn failure / timeout. -/
structure Env where
  exec : List String → String → Except String String
  existsSync : List String → String → Bool
  platform : String
  home : Option String
  userprofile : Option String
  response : String → Option String

/-- `CliCheckResult` (cliManager.ts lines 17-23).  Optional fields are
`none` when the TS object omits them. -/
structure CliCheckResult where
  installed : Bool
  version : Option String := none
  needsUpgrade : Option Bool := none
  resolvedPath : Option String := none
  deriving DecidableEq

/-- Observable effect trace: texts sent to terminals, notification
messages shown (informational and prompting alike, in order), and each
showing of the manual-instructions document (`true` = upgrade variant). -/
structure World where
  sent : List String := []
  msgs : List String := []
  docs : List Bool := []
  deriving DecidableEq

/-- `terminal.sendText`. -/
def sendText (w : World) (s : String) : World :=
  { w with sent := w.sent ++ [s] }

/-- A notification message shown to the user. -/
def addMsg (w : World) (s : String) : World :=
  { w with msgs := w.msgs ++ [s] }

/-- `showManualInstallInstructions(isUpgrade)` (cliManager.ts lines
455-564): opens an untitled markdown document; we record only which
variant was shown, the instruction text itself carries no logic. -/
def showManualInstallInstructions (w : World) (isUpgrade : Bool) : World :=
  { w with docs := w.docs ++ [isUpgrade] }

/-- The install-method variant type (cliManager.ts line 244). -/
inductive InstallMethod where
  | pipx
  | pipxMissing
  | pipUser
  | manual
  deriving DecidableEq

/-! ## Path resolution (`resolveZencoPath`, cliManager.ts lines 74-135) -/

/-- Join non-empty path segments with the platform separator. -/
def joinSep (sep : String) : List String → String
  | [] => ""
  | [p] => p
  | p :: ps => p ++ sep ++ joinSep sep ps

/-- Node `path.join` (modulo `.`/`..` normalisation, which cannot matter
here: joined paths are only passed to the opaque `existsSync`). -/
def pathJoin (platform : String) (parts : List String) : String :=
  let sep := if platform = "win32" then "\\" else "/"
  let ps := parts.filter (fun p => p != "")
  if ps.isEmpty then "." else joinSep sep ps

/-- `process.platform === 'win32' ? 'zenco.exe' : 'zenco'`. -/
def exeName (platform : String) : String :=
  if platform = "win32" then "zenco.exe" else "zenco"

/-- JS `a || b` on possibly-undefined strings: the empty string is falsy. -/
def jsOrStr (a : Option String) (b : String) : String :=
  match a with
  | some s => if s = "" then b else s
  | none => b

/-- `process.env.HOME || process.env.USERPROFILE || ''`. -/
def homeDir (env : Env) : String :=
  jsOrStr env.home (jsOrStr env.userprofile "")

/-- The fixed fallback path list (cliManager.ts lines 112-125). -/
def commonPaths (env : Env) : List String :=
  let home := homeDir env
  [ pathJoin env.platform [home, ".local", "bin", "zenco"],
    pathJoin env.platform [home, ".local", "pipx", "venvs", "zenco", "bin", "zenco"],
    "/opt/homebrew/bin/zenco",
    "/usr/local/bin/zenco",
    pathJoin env.platform [home, "AppData", "Roaming", "Python", "Scripts", "zenco.exe"],
    pathJoin env.platform [home, ".local", "bin", "zenco.exe"] ]

/-- The sysconfig introspection one-liner passed to `python -c`. -/
def sysconfigScript : String :=
  "import sysconfig, os; print(sysconfig.get_path(\x27scripts\x27, os.name + \x27_user\x27))"

/-- `findPython` (cliManager.ts lines 140-157): first command of
`python3`, `python`, `py` whose `--version` output contains `Python 3`. -/
def findPython (env : Env) (sent : List String) : Option String :=
  ["python3", "python", "py"].findSome? fun cmd =>
    match env.exec sent (cmd ++ " --version") with
    | .ok out => if includesStr out "Python 3" then some cmd else none
    | .error _ => none

/-- `resolveZencoPath` (cliManager.ts lines 74-135): each numbered step's
failure falls through silently to the next.  (The source's intermediate
`pipxBin`/`userBin`/`zencoPath` bindings are inlined.) -/
def resolveZencoPath (env : Env) (sent : List String) : String :=
  -- 1. Try global PATH first
  match env.exec sent "zenco --help" with
  | .ok _ => "zenco"
  | .error _ =>
    -- 2. Try to ask pipx where binaries are
    let step2 : Option String :=
      match env.exec sent "pipx environment --value PIPX_BIN_DIR" with
      | .ok out =>
        if env.existsSync sent (pathJoin env.platform [trimJs out, exeName env.platform]) then
          some (pathJoin env.platform [trimJs out, exeName env.platform])
        else none
      | .error _ => none
    match step2 with
    | some p => p
    | none =>
      -- 3. Try to ask Python where user scripts are (pip --user)
      let step3 : Option String :=
        match env.exec sent
            ((findPython env sent).getD "python3" ++ " -c \"" ++ sysconfigScript ++ "\"") with
        | .ok out =>
          if env.existsSync sent (pathJoin env.platform [trimJs out, exeName env.platform]) then
            some (pathJoin env.platform [trimJs out, exeName env.platform])
          else none
        | .error _ => none
      match step3 with
      | some p => p
      | none =>
        -- 4. Fallback to common hardcoded paths; 5. default to 'zenco'
        match (commonPaths env).find? (env.existsSync sent) with
        | some p => p
        | none => "zenco"

/-- The probe command `"${zencoPath}" --help` built by
`checkCliInstallation`. -/
def probeCommand (env : Env) (sent : List String) : String :=
  "\"" ++ resolveZencoPath env sent ++ "\" --help"

/-! ## Installation probe (`checkCliInstallation`, cliManager.ts 28-69) -/

/-- `checkCliInstallation`: probe `"<path>" --help`, parse the banner,
classify.  The catch branch re-runs `resolveZencoPath`; with a pure
environment that is the same value. -/
def checkCliInstallation (env : Env) (sent : List String) : CliCheckResult :=
  match env.exec sent (probeCommand env sent) with
  | .ok stdout =>
    match versionMatch stdout with
    | some version =>
      { installed := true
        version := some version
        needsUpgrade := some (decide (compareVersions version MINIMUM_ZENCO_VERSION < 0))
        resolvedPath := some (resolveZencoPath env sent) }
    | none =>
      { installed := true
        version := some "unknown"
        needsUpgrade := some false
        resolvedPath := some (resolveZencoPath env sent) }
  | .error _ =>
    { installed := false
      resolvedPath := some (resolveZencoPath env sent) }

/-- `checkPipxAvailable` (cliManager.ts lines 170-177). -/
def checkPipxAvailable (env : Env) (sent : List String) : Bool :=
  match env.exec sent "pipx --version" with
  | .ok _ => true
  | .error _ => false

/-- `checkBrewAvailable` (cliManager.ts lines 182-189). -/
def checkBrewAvailable (env : Env) (sent : List String) : Bool :=
  match env.exec sent "brew --version" with
  | .ok _ => true
  | .error _ => false

/-- `determineInstallMethod` (cliManager.ts lines 243-256): `pipx` when
available, otherwise the transient `pipx-missing`. -/
def determineInstallMethod (env : Env) (sent : List String) : InstallMethod :=
  if checkPipxAvailable env sent then .pipx else .pipxMissing

/-! ## Install flow (cliManager.ts lines 194-363 and 371-450) -/

/-- The bootstrap-confirmation prompt text. -/
def bootstrapDoneMsg : String := "Is pipx installation complete?"

/-- `installPipx` (cliManager.ts lines 194-227): run the platform
bootstrap in a terminal, ask the user to confirm, then re-probe pipx. -/
def installPipx (env : Env) (pythonCmd : String) (w : World) : Bool × World :=
  let hasBrew := checkBrewAvailable env w.sent
  let w1 :=
    if hasBrew then
      sendText (addMsg w "Installing pipx via Homebrew...") "brew install pipx"
    else
      sendText
        (sendText (addMsg w "Installing pipx via pip...")
          (pythonCmd ++ " -m pip install --user pipx"))
        (pythonCmd ++ " -m pipx ensurepath")
  let w2 := sendText w1 "echo \"PIPX_INSTALL_COMPLETE\""
  let w3 := addMsg w2 bootstrapDoneMsg
  if env.response bootstrapDoneMsg = some "Yes, Continue" then
    (checkPipxAvailable env w3.sent, w3)
  else (false, w3)

/-- The PATH-refresh hint shown by `validatePath`. -/
def pathHelpMsg : String :=
  "Zenco CLI installed! If you see errors, try restarting VS Code to refresh your PATH."

/-- `validatePath` (cliManager.ts lines 267-284): re-probe; on failure
surface the PATH hint (with an optional jump to the manual
instructions). -/
def validatePath (env : Env) (w : World) : Bool × World :=
  if (checkCliInstallation env w.sent).installed then (true, w)
  else if env.response pathHelpMsg = some "Show Help" then
    (false, showManualInstallInstructions (addMsg w pathHelpMsg) false)
  else (false, addMsg w pathHelpMsg)

/-- The pipx bootstrap offer prompt text. -/
def pipxPromptMsg : String :=
  "Zenco requires \"pipx\" for a safe installation. Install pipx now?"

/-- The pipx-missing resolution step of `installCli` (cliManager.ts lines
288-309): offer the bootstrap; decline or a failed bootstrap falls back
to pip --user. -/
def resolveInstallMethod (env : Env) (pythonCmd : String) (w : World) :
    InstallMethod × World :=
  match determineInstallMethod env w.sent with
  | .pipxMissing =>
    if env.response pipxPromptMsg = some "Install pipx" then
      if (installPipx env pythonCmd (addMsg w pipxPromptMsg)).1 then
        (.pipx, (installPipx env pythonCmd (addMsg w pipxPromptMsg)).2)
      else
        (.pipUser,
          addMsg (installPipx env pythonCmd (addMsg w pipxPromptMsg)).2
            "Failed to install pipx. Falling back to pip --user.")
    else (.pipUser, addMsg w pipxPromptMsg)
  | m => (m, w)

/-- The concrete install command of `installCli` (cliManager.ts lines
316-330): pipx gets `pipx install|upgrade zenco`, every other method gets
the pip --user command with the upgrade flag appended at the end. -/
def buildInstallCommand (m : InstallMethod) (pythonCmd : String) (upgrade : Bool) : String :=
  if m = .pipx then
    "pipx " ++ (if upgrade then "upgrade" else "install") ++ " zenco"
  else
    pythonCmd ++ " -m pip install --user zenco" ++ (if upgrade then " --upgrade" else "")

/-- The informational banner of `installCli` (cliManager.ts 320-329). -/
def installBanner (m : InstallMethod) (upgrade : Bool) : String :=
  if m = .pipx then
    if upgrade then "⚡ Upgrading Zenco CLI with pipx..."
    else "⚡ Installing Zenco CLI with pipx..."
  else
    if upgrade then "⚡ Upgrading Zenco CLI with pip --user..."
    else "⚡ Installing Zenco CLI with pip --user..."

/-- The install-completion prompt text. -/
def verifyPromptMsg : String :=
  "Installation running. Click \"Verify\" when complete."

/-- The completion step of `installCli` (cliManager.ts lines 339-361):
the user's answer to the completion prompt decides between verification,
manual instructions, and abandonment.  `w3` is the world after the built
command was sent.  (`validatePath` is pure, so calling it repeatedly is
the same as the source's single `const isValid = await validatePath()`.) -/
def installCliFinish (env : Env) (upgrade : Bool) (choice : Option String) (w3 : World) :
    Bool × World :=
  match choice with
  | some c =>
    if c = "Verify Installation" then
      if (validatePath env w3).1 then
        (true, addMsg (validatePath env w3).2
          ("✅ Zenco CLI " ++
            (checkCliInstallation env (validatePath env w3).2.sent).version.getD "undefined" ++
            " installed!"))
      else (false, (validatePath env w3).2)
    else if c = "Show Manual Instructions" then
      (false, showManualInstallInstructions w3 upgrade)
    else (false, w3)
  | none => (false, w3)

/-- `installCli` (cliManager.ts lines 286-363): resolve the method, send
the built command to a terminal, then hand over to the completion step. -/
def installCli (env : Env) (pythonCmd : String) (upgrade : Bool) (w : World) :
    Bool × World :=
  installCliFinish env upgrade (env.response verifyPromptMsg)
    (addMsg
      (sendText
        (sendText
          (addMsg (resolveInstallMethod env pythonCmd w).2
            (installBanner (resolveInstallMethod env pythonCmd w).1 upgrade))
          (buildInstallCommand (resolveInstallMethod env pythonCmd w).1 pythonCmd upgrade))
        "echo \"ZENCO_INSTALL_COMPLETE\"")
      verifyPromptMsg)

/-- The not-installed prompt text. -/
def installPromptMsg : String :=
  "Zenco CLI is not installed. Would you like to install it now?"

/-- The outdated-version prompt text; a missing version interpolates as
the string `undefined`, as in JS template literals. -/
def outdatedMsg (version : Option String) : String :=
  "Zenco CLI " ++ version.getD "undefined" ++ " is outdated. Minimum required: " ++
    MINIMUM_ZENCO_VERSION ++ ". Upgrade now?"

/-- The missing-interpreter error message. -/
def noPythonMsg : String :=
  "Python 3 not found. Please install Python 3 first, then try again."

/-- Case 2 of `ensureCliInstalled` (cliManager.ts lines 384-405), after
the outdated-version prompt was shown: `choice` is the user's answer and
`w1` the world with the prompt recorded. -/
def ensureUpgradeFlow (env : Env) (dismissed : Bool) (choice : Option String) (w1 : World) :
    Bool × Bool × World :=
  if choice = some "Upgrade" then
    match findPython env w1.sent with
    | some pythonCmd =>
      ((installCli env pythonCmd true w1).1, dismissed, (installCli env pythonCmd true w1).2)
    | none => (false, dismissed, showManualInstallInstructions w1 true)
  else if choice = some "Manual Instructions" then
    (false, dismissed, showManualInstallInstructions w1 true)
  else (false, dismissed, w1)

/-- Case 3 of `ensureCliInstalled` (cliManager.ts lines 417-449), after
the not-installed prompt was shown. -/
def ensureNotInstalledFlow (env : Env) (dismissed : Bool) (choice : Option String)
    (w1 : World) : Bool × Bool × World :=
  if choice = some "Install" then
    match findPython env w1.sent with
    | some pythonCmd =>
      ((installCli env pythonCmd false w1).1,
        -- Clear dismissed flag on successful install
        if (installCli env pythonCmd false w1).1 then false else dismissed,
        (installCli env pythonCmd false w1).2)
    | none =>
      (false, dismissed, showManualInstallInstructions (addMsg w1 noPythonMsg) false)
  else if choice = some "Manual Instructions" then
    (false, dismissed, showManualInstallInstructions w1 false)
  else if choice = some "Don\x27t Show Again" then
    (false, true, w1)
  else (false, dismissed, w1)

/-- `ensureCliInstalled` (cliManager.ts lines 371-450).  `dismissed` is
the persisted `zenco.installPromptDismissed` flag read from
`context.globalState`; the middle component of the result is its value
after the call. -/
def ensureCliInstalled (env : Env) (force : Bool) (dismissed : Bool) (w : World) :
    Bool × Bool × World :=
  -- Case 1: CLI is installed and up-to-date
  if (checkCliInstallation env w.sent).installed &&
      !((checkCliInstallation env w.sent).needsUpgrade.getD false) then
    (true, dismissed, w)
  -- Case 2: CLI needs upgrade
  else if (checkCliInstallation env w.sent).installed &&
      (checkCliInstallation env w.sent).needsUpgrade.getD false then
    ensureUpgradeFlow env dismissed
      (env.response (outdatedMsg (checkCliInstallation env w.sent).version))
      (addMsg w (outdatedMsg (checkCliInstallation env w.sent).version))
  -- Case 3: CLI is not installed; honour a persisted non-forced dismissal
  else if dismissed && !force then
    (false, dismissed, w)
  else
    ensureNotInstalledFlow env dismissed (env.response installPromptMsg)
      (addMsg w installPromptMsg)

/-! ## Spec-side view of the resolver: an ordered list of strategies -/

/-- Strategy 1 of the spec's priority order: the bare command on the
global PATH, validated by invoking `zenco --help`. -/
def stratGlobal (env : Env) (sent : List String) : Option String :=
  match env.exec sent "zenco --help" with
  | .ok _ => some "zenco"
  | .error _ => none

/-- Strategy 2: the pipx binary directory. -/
def stratPipxDir (env : Env) (sent : List String) : Option String :=
  match env.exec sent "pipx environment --value PIPX_BIN_DIR" with
  | .ok out =>
    if env.existsSync sent (pathJoin env.platform [trimJs out, exeName env.platform]) then
      some (pathJoin env.platform [trimJs out, exeName env.platform])
    else none
  | .error _ => none

/-- Strategy 3: the Python user-scripts directory. -/
def stratPyUserDir (env : Env) (sent : List String) : Option String :=
  match env.exec sent
      ((findPython env sent).getD "python3" ++ " -c \"" ++ sysconfigScript ++ "\"") with
  | .ok out =>
    if env.existsSync sent (pathJoin env.platform [trimJs out, exeName env.platform]) then
      some (pathJoin env.platform [trimJs out, exeName env.platform])
    else none
  | .error _ => none

/-- Strategy 4: the fixed list of conventional filesystem paths. -/
def stratCommonPaths (env : Env) (sent : List String) : Option String :=
  (commonPaths env).find? (env.existsSync sent)

/-- Spec-side formulation of the resolver (written from the spec's words):
evaluate the strategies in priority order, return the first success, and
default to the bare name `zenco` when every strategy fails. -/
def resolveFirstSuccess (env : Env) (sent : List String) : String :=
  (([stratGlobal env sent, stratPipxDir env sent, stratPyUserDir env sent,
      stratCommonPaths env sent].findSome? id).getD "zenco")

/-! ## Helper lemmas -/

theorem append_ne_empty (p q : String) (h : p ≠ "") : p ++ q ≠ "" := by
  intro hc
  apply h
  have hd := congrArg String.data hc
  rw [String.data_append] at hd
  have : p.data = [] := List.append_eq_nil.mp hd |>.1
  cases p
  simp_all

theorem joinSep_ne_empty (sep : String) (l : List String)
    (hne : l ≠ []) (hall : ∀ x ∈ l, x ≠ "") : joinSep sep l ≠ "" := by
  match l with
  | [] => exact absurd rfl hne
  | [p] => simpa [joinSep] using hall p (by simp)
  | p :: q :: ps =>
    show p ++ sep ++ joinSep sep (q :: ps) ≠ ""
    exact append_ne_empty _ _ (append_ne_empty _ _ (hall p (by simp)))

theorem pathJoin_ne_empty (pf : String) (parts : List String) :
    pathJoin pf parts ≠ "" := by
  unfold pathJoin
  simp only
  split
  · decide
  · next hne =>
    apply joinSep_ne_empty
    · simpa [List.isEmpty_iff] using hne
    · intro x hx
      have := (List.mem_filter.mp hx).2
      simpa [bne_iff_ne] using this

theorem resolveZencoPath_eq_firstSuccess (env : Env) (sent : List String) :
    resolveZencoPath env sent = resolveFirstSuccess env sent := by
  unfold resolveZencoPath resolveFirstSuccess stratGlobal stratPipxDir stratPyUserDir
    stratCommonPaths
  cases h1 : env.exec sent "zenco --help" with
  | ok out => simp [List.findSome?]
  | error e1 =>
    cases h2 : env.exec sent "pipx environment --value PIPX_BIN_DIR" with
    | ok out2 =>
      cases h3 : env.existsSync sent
          (pathJoin env.platform [trimJs out2, exeName env.platform]) with
      | true => simp_all [List.findSome?]
      | false =>
        cases h4 : env.exec sent
            ((findPython env sent).getD "python3" ++ " -c \"" ++ sysconfigScript ++ "\"") with
        | ok out3 =>
          cases h5 : env.existsSync sent
              (pathJoin env.platform [trimJs out3, exeName env.platform]) with
          | true => simp_all [List.findSome?]
          | false =>
            cases h6 : (commonPaths env).find? (env.existsSync sent) <;>
              simp_all [List.findSome?]
        | error e3 =>
          cases h6 : (commonPaths env).find? (env.existsSync sent) <;>
            simp_all [List.findSome?]
    | error e2 =>
      cases h4 : env.exec sent
          ((findPython env sent).getD "python3" ++ " -c \"" ++ sysconfigScript ++ "\"") with
      | ok out3 =>
        cases h5 : env.existsSync sent
            (pathJoin env.platform [trimJs out3, exeName env.platform]) with
        | true => simp_all [List.findSome?]
        | false =>
          cases h6 : (commonPaths env).find? (env.existsSync sent) <;>
            simp_all [List.findSome?]
      | error e3 =>
        cases h6 : (commonPaths env).find? (env.existsSync sent) <;>
          simp_all [List.findSome?]

theorem stratGlobal_ne_empty {env : Env} {sent : List String} {p : String}
    (h : stratGlobal env sent = some p) : p ≠ "" := by
  unfold stratGlobal at h
  split at h
  · cases h; decide
  · cases h

theorem stratPipxDir_ne_empty {env : Env} {sent : List String} {p : String}
    (h : stratPipxDir env sent = some p) : p ≠ "" := by
  unfold stratPipxDir at h
  split at h
  · split at h
    · cases h; exact pathJoin_ne_empty _ _
    · cases h
  · cases h

theorem stratPyUserDir_ne_empty {env : Env} {sent : List String} {p : String}
    (h : stratPyUserDir env sent = some p) : p ≠ "" := by
  unfold stratPyUserDir at h
  split at h
  · split at h
    · cases h; exact pathJoin_ne_empty _ _
    · cases h
  · cases h

theorem stratCommonPaths_ne_empty {env : Env} {sent : List String} {p : String}
    (h : stratCommonPaths env sent = some p) : p ≠ "" := by
  unfold stratCommonPaths at h
  have hmem := List.mem_of_find?_eq_some h
  unfold commonPaths at hmem
  simp only [List.mem_cons, List.not_mem_nil, or_false] at hmem
  rcases hmem with rfl | rfl | rfl | rfl | rfl | rfl
  · exact pathJoin_ne_empty _ _
  · exact pathJoin_ne_empty _ _
  · decide
  · decide
  · exact pathJoin_ne_empty _ _
  · exact pathJoin_ne_empty _ _

theorem resolveFirstSuccess_ne_empty (env : Env) (sent : List String) :
    resolveFirstSuccess env sent ≠ "" := by
  unfold resolveFirstSuccess
  cases h : List.findSome? id
      [stratGlobal env sent, stratPipxDir env sent, stratPyUserDir env sent,
        stratCommonPaths env sent] with
  | none => decide
  | some p =>
    simp only [Option.getD_some]
    obtain ⟨o, ho, hop⟩ := List.exists_of_findSome?_eq_some h
    simp only [id] at hop
    simp only [List.mem_cons, List.not_mem_nil, or_false] at ho
    rcases ho with rfl | rfl | rfl | rfl
    · exact stratGlobal_ne_empty hop
    · exact stratPipxDir_ne_empty hop
    · exact stratPyUserDir_ne_empty hop
    · exact stratCommonPaths_ne_empty hop

theorem resolveZencoPath_ne_empty (env : Env) (sent : List String) :
    resolveZencoPath env sent ≠ "" := by
  rw [resolveZencoPath_eq_firstSuccess]
  exact resolveFirstSuccess_ne_empty env sent

theorem digitSpan_all_digits : ∀ cs : List Char, ∀ c ∈ (digitSpan cs).1, c.isDigit := by
  intro cs
  induction cs with
  | nil => simp [digitSpan]
  | cons c cs ih =>
    simp only [digitSpan]
    split
    · next hd =>
      intro x hx
      rcases List.mem_cons.mp hx with rfl | hx'
      · exact hd
      · exact ih x hx'
    · simp

theorem matchVersionSuffix_head {cs v : List Char}
    (h : matchVersionSuffix cs = some v) : ∃ d t, v = d :: t ∧ d.isDigit := by
  unfold matchVersionSuffix at h
  split at h
  · cases h
  · next hne =>
    split at h
    · split at h
      · cases h
      · split at h
        · split at h
          · cases h
          · cases heq2 : (digitSpan cs).1 with
            | nil => rw [heq2] at hne; simp at hne
            | cons d t =>
              rw [heq2] at h
              obtain rfl := Option.some.inj h
              exact ⟨d, _, rfl,
                digitSpan_all_digits cs d (heq2 ▸ List.mem_cons_self d t)⟩
        · cases h
    · cases h

theorem findVersion_head : ∀ cs v, findVersion cs = some v →
    ∃ d t, v = d :: t ∧ d.isDigit := by
  intro cs
  induction cs with
  | nil => intro v h; cases h
  | cons c cs ih =>
    intro v h
    unfold findVersion at h
    split at h
    · split at h
      · next hm =>
        cases h
        exact matchVersionSuffix_head hm
      · exact ih v h
    · exact ih v h

/-- A successfully parsed banner version starts with a digit, so it can
never be the literal sentinel `unknown`. -/
theorem versionMatch_ne_unknown (s : String) : versionMatch s ≠ some "unknown" := by
  unfold versionMatch
  cases h : findVersion s.data with
  | none => simp
  | some v =>
    obtain ⟨d, t, rfl, hd⟩ := findVersion_head _ _ h
    simp only [Option.map_some', ne_eq, Option.some.injEq]
    intro hc
    have hdata : d :: t = ("unknown" : String).data := congrArg String.data hc
    have : d = 'u' := (List.cons.injEq _ _ _ _ ▸ hdata).1
    subst this
    exact absurd hd (by decide)

/-! ## Effect-trace helper lemmas -/

@[simp] theorem addMsg_sent (w : World) (s : String) : (addMsg w s).sent = w.sent := rfl

@[simp] theorem sendText_sent (w : World) (s : String) :
    (sendText w s).sent = w.sent ++ [s] := rfl

@[simp] theorem showManualInstallInstructions_sent (w : World) (b : Bool) :
    (showManualInstallInstructions w b).sent = w.sent := rfl

@[simp] theorem addMsg_docs (w : World) (s : String) : (addMsg w s).docs = w.docs := rfl

@[simp] theorem sendText_docs (w : World) (s : String) : (sendText w s).docs = w.docs := rfl

@[simp] theorem addMsg_msgs (w : World) (s : String) :
    (addMsg w s).msgs = w.msgs ++ [s] := rfl

@[simp] theorem sendText_msgs (w : World) (s : String) : (sendText w s).msgs = w.msgs := rfl

@[simp] theorem showManualInstallInstructions_msgs (w : World) (b : Bool) :
    (showManualInstallInstructions w b).msgs = w.msgs := rfl

theorem validatePath_sent (env : Env) (w : World) :
    (validatePath env w).2.sent = w.sent := by
  unfold validatePath
  split
  · rfl
  · split <;> simp

/-- Whatever else happens, `installCli` sends exactly the command built
from the resolved method (then the completion sentinel) to the install
terminal. -/
theorem installCliFinish_sent (env : Env) (upgrade : Bool) (choice : Option String)
    (w3 : World) : (installCliFinish env upgrade choice w3).2.sent = w3.sent := by
  cases choice with
  | none => rfl
  | some c =>
    unfold installCliFinish
    by_cases h1 : c = "Verify Installation" <;>
      by_cases h2 : (validatePath env w3).1 = true <;>
        by_cases h3 : c = "Show Manual Instructions" <;>
          simp [h1, h2, h3, validatePath_sent]

theorem installCli_sent (env : Env) (pythonCmd : String) (upgrade : Bool) (w : World) :
    (installCli env pythonCmd upgrade w).2.sent =
      (resolveInstallMethod env pythonCmd w).2.sent ++
        [buildInstallCommand (resolveInstallMethod env pythonCmd w).1 pythonCmd upgrade,
          "echo \"ZENCO_INSTALL_COMPLETE\""] := by
  unfold installCli
  rw [installCliFinish_sent]
  simp

/-- The pipx-missing state is always resolved before a command is built:
the effective method is pipx or pip --user. -/
theorem resolveInstallMethod_cases (env : Env) (pythonCmd : String) (w : World) :
    (resolveInstallMethod env pythonCmd w).1 = InstallMethod.pipx ∨
      (resolveInstallMethod env pythonCmd w).1 = InstallMethod.pipUser := by
  unfold resolveInstallMethod determineInstallMethod
  by_cases hp : checkPipxAvailable env w.sent
  · simp [hp]
  · simp only [hp, if_neg, Bool.false_eq_true, if_false]
    split
    · split
      · simp
      · simp
    · simp

theorem cmpFrom_mem (p1 p2 : List (Option Int)) :
    ∀ l, cmpFrom p1 p2 l = 1 ∨ cmpFrom p1 p2 l = 0 ∨ cmpFrom p1 p2 l = -1 := by
  intro l
  induction l with
  | nil => simp [cmpFrom]
  | cons i rest ih =>
    simp only [cmpFrom]
    split
    · simp
    · split
      · simp
      · exact ih

/-! ## Claim theorems -/

/-- C5: `compareVersions` splits on `.`, treats missing or non-numeric
components as `0`, compares the first three components as integers, and is
total with range `{-1, 0, 1}`; in particular the four documented example
comparisons hold. -/
theorem compareVersions_spec :
    compareVersions "1.2.3" "1.2.3" = 0 ∧
    compareVersions "0.1.0" "0.2.0" = -1 ∧
    compareVersions "2.0.0" "1.9.9" = 1 ∧
    compareVersions "1.2" "1.2.0" = 0 ∧
    ∀ a b : String,
      compareVersions a b = 1 ∨ compareVersions a b = 0 ∨ compareVersions a b = -1 :=
  ⟨by decide, by decide, by decide, by decide, fun a b => cmpFrom_mem _ _ _⟩

/-- Evaluation of the probe on an execution failure. -/
theorem checkCli_eq_error (env : Env) (sent : List String) (e : String)
    (h : env.exec sent (probeCommand env sent) = .error e) :
    checkCliInstallation env sent =
      { installed := false, resolvedPath := some (resolveZencoPath env sent) } := by
  unfold checkCliInstallation
  rw [h]

/-- Evaluation of the probe on responsive but unparseable output. -/
theorem checkCli_eq_unknown (env : Env) (sent : List String) (out : String)
    (h : env.exec sent (probeCommand env sent) = .ok out)
    (hv : versionMatch out = none) :
    checkCliInstallation env sent =
      { installed := true, version := some "unknown", needsUpgrade := some false,
        resolvedPath := some (resolveZencoPath env sent) } := by
  unfold checkCliInstallation
  rw [h]
  simp only [hv]

/-- Evaluation of the probe on a parsed banner version. -/
theorem checkCli_eq_parsed (env : Env) (sent : List String) (out v : String)
    (h : env.exec sent (probeCommand env sent) = .ok out)
    (hv : versionMatch out = some v) :
    checkCliInstallation env sent =
      { installed := true, version := some v,
        needsUpgrade := some (decide (compareVersions v MINIMUM_ZENCO_VERSION < 0)),
        resolvedPath := some (resolveZencoPath env sent) } := by
  unfold checkCliInstallation
  rw [h]
  simp only [hv]

/-- C1: `needsUpgrade` is `true` exactly when the CLI is installed and the
version parsed from the `--help` banner compares strictly below
`MINIMUM_ZENCO_VERSION`; an absent version or the `unknown` sentinel never
sets it; and the banner `Zenco AI v0.0.9` against minimum `0.1.0` yields
`{installed := true, version := 0.0.9, needsUpgrade := true}`. -/
theorem checkCli_needsUpgrade_iff (env : Env) (sent : List String) :
    ((checkCliInstallation env sent).needsUpgrade = some true ↔
      (checkCliInstallation env sent).installed = true ∧
      ∃ out, env.exec sent (probeCommand env sent) = .ok out ∧
        ∃ v, versionMatch out = some v ∧ compareVersions v MINIMUM_ZENCO_VERSION < 0) ∧
    (((checkCliInstallation env sent).version = none ∨
        (checkCliInstallation env sent).version = some "unknown") →
      (checkCliInstallation env sent).needsUpgrade ≠ some true) ∧
    (env.exec sent (probeCommand env sent) = .ok "Zenco AI v0.0.9" →
      checkCliInstallation env sent =
        { installed := true, version := some "0.0.9", needsUpgrade := some true,
          resolvedPath := some (resolveZencoPath env sent) }) := by
  cases hex : env.exec sent (probeCommand env sent) with
  | error e =>
    rw [checkCli_eq_error env sent e hex]
    refine ⟨?_, ?_, ?_⟩
    · simp
    · simp
    · intro h
      simp at h
  | ok out =>
    cases hvm : versionMatch out with
    | none =>
      rw [checkCli_eq_unknown env sent out hex hvm]
      refine ⟨?_, ?_, ?_⟩
      · constructor
        · intro h
          simp at h
        · rintro ⟨-, out2, hout2, v, hv, -⟩
          injection hout2 with h2
          subst h2
          rw [hvm] at hv
          cases hv
      · simp
      · intro h
        injection h with h2
        subst h2
        exact absurd hvm (by decide)
    | some v =>
      rw [checkCli_eq_parsed env sent out v hex hvm]
      refine ⟨?_, ?_, ?_⟩
      · simp only [Option.some.injEq, decide_eq_true_eq]
        constructor
        · intro hlt
          exact ⟨by simp, out, rfl, v, hvm, hlt⟩
        · rintro ⟨-, out2, hout2, v2, hv2, hlt⟩
          injection hout2 with h2
          subst h2
          rw [hvm] at hv2
          injection hv2 with h3
          subst h3
          exact hlt
      · rintro (h | h)
        · simp at h
        · simp only [Option.some.injEq] at h
          subst h
          exact absurd hvm (versionMatch_ne_unknown out)
      · intro h
        injection h with h2
        subst h2
        have h9 : versionMatch "Zenco AI v0.0.9" = some "0.0.9" := by decide
        rw [h9] at hvm
        injection hvm with h3
        subst h3
        have hlt : decide (compareVersions "0.0.9" MINIMUM_ZENCO_VERSION < 0) = true := by
          decide
        rw [hlt]

/-- Concrete environment whose probe answers with the 0.0.9 banner. -/
def envBanner009 : Env :=
  { exec := fun _ c =>
      if c = "zenco --help" || c = "\"zenco\" --help" then .ok "Zenco AI v0.0.9"
      else .error "fail"
    existsSync := fun _ _ => false
    platform := "linux"
    home := none
    userprofile := none
    response := fun _ => none }

/-- Witness for C1: the 0.0.9 banner example, discharged concretely. -/
theorem checkCli_needsUpgrade_iff_witness :
    checkCliInstallation envBanner009 [] =
      { installed := true, version := some "0.0.9", needsUpgrade := some true,
        resolvedPath := some (resolveZencoPath envBanner009 []) } :=
  (checkCli_needsUpgrade_iff envBanner009 []).2.2 rfl

/-- C2: `resolveZencoPath` equals the ordered first-success evaluation of
its four strategies (global PATH probe, pipx binary dir, Python
user-scripts dir, conventional paths), defaulting to the bare name
`zenco`, and always returns a non-empty string. -/
theorem resolveZencoPath_priority (env : Env) (sent : List String) :
    resolveZencoPath env sent = resolveFirstSuccess env sent ∧
    resolveZencoPath env sent ≠ "" :=
  ⟨resolveZencoPath_eq_firstSuccess env sent, resolveZencoPath_ne_empty env sent⟩

/-- C3: every execution failure of the probe command collapses into
`installed = false` with a non-empty resolved path. -/
theorem checkCli_failure (env : Env) (sent : List String) (e : String)
    (h : env.exec sent (probeCommand env sent) = .error e) :
    checkCliInstallation env sent =
      { installed := false, resolvedPath := some (resolveZencoPath env sent) } ∧
    resolveZencoPath env sent ≠ "" :=
  ⟨checkCli_eq_error env sent e h, resolveZencoPath_ne_empty env sent⟩

/-- Concrete environment in which every command execution fails. -/
def envAllFail : Env :=
  { exec := fun _ _ => .error "spawn failure"
    existsSync := fun _ _ => false
    platform := "linux"
    home := none
    userprofile := none
    response := fun _ => none }

/-- Witness for C3: with every execution failing, the probe reports not
installed with resolved path `zenco`. -/
theorem checkCli_failure_witness :
    checkCliInstallation envAllFail [] =
      { installed := false, resolvedPath := some (resolveZencoPath envAllFail []) } ∧
    resolveZencoPath envAllFail [] ≠ "" :=
  checkCli_failure envAllFail [] "spawn failure" rfl

/-- C4: a responsive probe whose output has no banner match is classified
as installed with the `unknown` version and no upgrade demand. -/
theorem checkCli_unparseable (env : Env) (sent : List String) (out : String)
    (hok : env.exec sent (probeCommand env sent) = .ok out)
    (hnone : versionMatch out = none) :
    checkCliInstallation env sent =
      { installed := true, version := some "unknown", needsUpgrade := some false,
        resolvedPath := some (resolveZencoPath env sent) } :=
  checkCli_eq_unknown env sent out hok hnone

/-- Concrete environment whose probe answers with bannerless usage text. -/
def envNoBanner : Env :=
  { exec := fun _ _ => .ok "usage: zenco run FILE [options]"
    existsSync := fun _ _ => false
    platform := "linux"
    home := none
    userprofile := none
    response := fun _ => none }

/-- Witness for C4 at a concrete unparseable-output environment. -/
theorem checkCli_unparseable_witness :
    checkCliInstallation envNoBanner [] =
      { installed := true, version := some "unknown", needsUpgrade := some false,
        resolvedPath := some (resolveZencoPath envNoBanner []) } :=
  checkCli_unparseable envNoBanner [] "usage: zenco run FILE [options]" rfl (by decide)

/-! ## Message-trace and flag lemmas for the orchestrator -/

theorem msgs_extend_validatePath (env : Env) (w : World) :
    ∃ t, (validatePath env w).2.msgs = w.msgs ++ t := by
  unfold validatePath
  split_ifs
  · exact ⟨[], by simp⟩
  · exact ⟨[pathHelpMsg], by simp⟩
  · exact ⟨[pathHelpMsg], by simp⟩

theorem msgs_extend_installCliFinish (env : Env) (u : Bool) (choice : Option String)
    (w3 : World) : ∃ t, (installCliFinish env u choice w3).2.msgs = w3.msgs ++ t := by
  obtain ⟨t, ht⟩ := msgs_extend_validatePath env w3
  cases choice with
  | none => exact ⟨[], by simp [installCliFinish]⟩
  | some c =>
    unfold installCliFinish
    by_cases h1 : c = "Verify Installation"
    · by_cases h2 : (validatePath env w3).1 = true
      · refine ⟨t ++ ["✅ Zenco CLI " ++
          (checkCliInstallation env (validatePath env w3).2.sent).version.getD "undefined" ++
          " installed!"], ?_⟩
        simp [h1, h2, ht]
      · exact ⟨t, by simp [h1, h2, ht]⟩
    · by_cases h3 : c = "Show Manual Instructions"
      · exact ⟨[], by simp [h1, h3]⟩
      · exact ⟨[], by simp [h1, h3]⟩

theorem msgs_extend_installPipx (env : Env) (p : String) (w : World) :
    ∃ t, (installPipx env p w).2.msgs = w.msgs ++ t := by
  unfold installPipx
  by_cases hb : checkBrewAvailable env w.sent
  · by_cases hr : env.response bootstrapDoneMsg = some "Yes, Continue" <;>
      exact ⟨["Installing pipx via Homebrew...", bootstrapDoneMsg], by simp [hb, hr]⟩
  · by_cases hr : env.response bootstrapDoneMsg = some "Yes, Continue" <;>
      exact ⟨["Installing pipx via pip...", bootstrapDoneMsg], by simp [hb, hr]⟩

theorem msgs_extend_resolveInstallMethod (env : Env) (p : String) (w : World) :
    ∃ t, (resolveInstallMethod env p w).2.msgs = w.msgs ++ t := by
  unfold resolveInstallMethod
  cases hm : determineInstallMethod env w.sent with
  | pipxMissing =>
    obtain ⟨t, ht⟩ := msgs_extend_installPipx env p (addMsg w pipxPromptMsg)
    by_cases hr : env.response pipxPromptMsg = some "Install pipx"
    · by_cases hp : (installPipx env p (addMsg w pipxPromptMsg)).1 = true
      · exact ⟨pipxPromptMsg :: t, by simp [hr, hp, ht]⟩
      · exact ⟨pipxPromptMsg :: (t ++ ["Failed to install pipx. Falling back to pip --user."]),
          by simp [hr, hp, ht]⟩
    · exact ⟨[pipxPromptMsg], by simp [hr]⟩
  | pipx => exact ⟨[], by simp⟩
  | pipUser => exact ⟨[], by simp⟩
  | manual => exact ⟨[], by simp⟩

theorem msgs_extend_installCli (env : Env) (p : String) (u : Bool) (w : World) :
    ∃ t, (installCli env p u w).2.msgs = w.msgs ++ t := by
  unfold installCli
  obtain ⟨t1, ht1⟩ := msgs_extend_resolveInstallMethod env p w
  obtain ⟨t2, ht2⟩ := msgs_extend_installCliFinish env u (env.response verifyPromptMsg)
    (addMsg (sendText (sendText (addMsg (resolveInstallMethod env p w).2
      (installBanner (resolveInstallMethod env p w).1 u))
      (buildInstallCommand (resolveInstallMethod env p w).1 p u))
      "echo \"ZENCO_INSTALL_COMPLETE\"") verifyPromptMsg)
  refine ⟨t1 ++ [installBanner (resolveInstallMethod env p w).1 u, verifyPromptMsg] ++ t2, ?_⟩
  rw [ht2]
  simp [ht1]

theorem msgs_extend_ensureNotInstalledFlow (env : Env) (d : Bool) (choice : Option String)
    (w1 : World) : ∃ t, (ensureNotInstalledFlow env d choice w1).2.2.msgs = w1.msgs ++ t := by
  unfold ensureNotInstalledFlow
  by_cases h1 : choice = some "Install"
  · cases hp : findPython env w1.sent with
    | some cmd =>
      obtain ⟨t, ht⟩ := msgs_extend_installCli env cmd false w1
      exact ⟨t, by simp [h1, hp, ht]⟩
    | none => exact ⟨[noPythonMsg], by simp [h1, hp]⟩
  · by_cases h2 : choice = some "Manual Instructions"
    · exact ⟨[], by simp [h1, h2]⟩
    · by_cases h3 : choice = some "Don\x27t Show Again"
      · exact ⟨[], by simp [h1, h2, h3]⟩
      · exact ⟨[], by simp [h1, h2, h3]⟩

theorem ensureUpgradeFlow_dismissed (env : Env) (d : Bool) (choice : Option String)
    (w1 : World) : (ensureUpgradeFlow env d choice w1).2.1 = d := by
  unfold ensureUpgradeFlow
  by_cases h1 : choice = some "Upgrade"
  · cases hp : findPython env w1.sent <;> simp [h1, hp]
  · by_cases h2 : choice = some "Manual Instructions" <;> simp [h1, h2]

theorem ensureNotInstalledFlow_clears (env : Env) (d : Bool) (choice : Option String)
    (w1 : World) : (ensureNotInstalledFlow env d choice w1).1 = true →
    (ensureNotInstalledFlow env d choice w1).2.1 = false := by
  unfold ensureNotInstalledFlow
  by_cases h1 : choice = some "Install"
  · cases hp : findPython env w1.sent with
    | some cmd =>
      simp only [h1, hp, if_true, if_pos]
      intro h
      simp [h]
    | none => simp [h1, hp]
  · by_cases h2 : choice = some "Manual Instructions"
    · simp [h1, h2]
    · by_cases h3 : choice = some "Don\x27t Show Again" <;> simp [h1, h2, h3]

theorem ensureUpgradeFlow_d_indep (env : Env) (choice : Option String) (w1 : World)
    (d d' : Bool) :
    (ensureUpgradeFlow env d choice w1).1 = (ensureUpgradeFlow env d' choice w1).1 ∧
    (ensureUpgradeFlow env d choice w1).2.2 = (ensureUpgradeFlow env d' choice w1).2.2 := by
  unfold ensureUpgradeFlow
  by_cases h1 : choice = some "Upgrade"
  · cases hp : findPython env w1.sent <;> simp [h1, hp]
  · by_cases h2 : choice = some "Manual Instructions" <;> simp [h1, h2]

theorem ensureNotInstalledFlow_d_indep (env : Env) (choice : Option String) (w1 : World)
    (d d' : Bool) :
    (ensureNotInstalledFlow env d choice w1).1 =
      (ensureNotInstalledFlow env d' choice w1).1 ∧
    (ensureNotInstalledFlow env d choice w1).2.2 =
      (ensureNotInstalledFlow env d' choice w1).2.2 := by
  unfold ensureNotInstalledFlow
  by_cases h1 : choice = some "Install"
  · cases hp : findPython env w1.sent <;> simp [h1, hp]
  · by_cases h2 : choice = some "Manual Instructions"
    · simp [h1, h2]
    · by_cases h3 : choice = some "Don\x27t Show Again" <;> simp [h1, h2, h3]

/-- Concrete environment with pipx missing where the user picks the
pip --user fallback at the bootstrap prompt. -/
def envPipFallback : Env :=
  { exec := fun _ _ => .error "fail"
    existsSync := fun _ _ => false
    platform := "linux"
    home := some "/home/u"
    userprofile := none
    response := fun m =>
      if m = pipxPromptMsg then some "Try fallback (pip --user)" else none }

/-- C6 counterexample: in the pip --user upgrade flow the code appends
` --upgrade` after the package name, so the command with the flag between
`--user` and the package is never the one sent. -/
theorem installCli_upgrade_flag_after_package :
    (installCli envPipFallback "python3" true ⟨[], [], []⟩).2.sent =
      ["python3 -m pip install --user zenco --upgrade",
        "echo \"ZENCO_INSTALL_COMPLETE\""] ∧
    "python3 -m pip install --user --upgrade zenco" ∉
      (installCli envPipFallback "python3" true ⟨[], [], []⟩).2.sent :=
  ⟨by decide, by decide⟩

/-- C6 (amended): the pipx commands are `pipx install zenco` and
`pipx upgrade zenco`; the pip --user command is
`<interpreter> -m pip install --user zenco`, with ` --upgrade` appended
after the package name when upgrading; and the command `installCli` sends
is always the one built from a fully resolved method. -/
theorem installCli_command_spec (pythonCmd : String) :
    buildInstallCommand .pipx pythonCmd false = "pipx install zenco" ∧
    buildInstallCommand .pipx pythonCmd true = "pipx upgrade zenco" ∧
    buildInstallCommand .pipUser pythonCmd false =
      pythonCmd ++ " -m pip install --user zenco" ∧
    buildInstallCommand .pipUser pythonCmd true =
      pythonCmd ++ " -m pip install --user zenco --upgrade" ∧
    ∀ env w upgrade, ∃ m, (m = InstallMethod.pipx ∨ m = InstallMethod.pipUser) ∧
      buildInstallCommand m pythonCmd upgrade ∈
        (installCli env pythonCmd upgrade w).2.sent := by
  refine ⟨rfl, rfl, ?_, ?_, ?_⟩
  · show pythonCmd ++ " -m pip install --user zenco" ++ "" = _
    rw [String.append_empty]
  · show pythonCmd ++ " -m pip install --user zenco" ++ " --upgrade" = _
    rw [String.append_assoc]
    exact congrArg (fun s => pythonCmd ++ s) (by decide)
  · intro env w upgrade
    refine ⟨(resolveInstallMethod env pythonCmd w).1,
      resolveInstallMethod_cases env pythonCmd w, ?_⟩
    rw [installCli_sent]
    simp

/-- C9: the transient pipx-missing state is always resolved before an
install command is built; declining the bootstrap, or a bootstrap that
fails verification, falls back to pip --user rather than failing. -/
theorem installMethod_never_missing (env : Env) (pythonCmd : String) (w : World) :
    ((resolveInstallMethod env pythonCmd w).1 = InstallMethod.pipx ∨
      (resolveInstallMethod env pythonCmd w).1 = InstallMethod.pipUser) ∧
    (determineInstallMethod env w.sent = InstallMethod.pipxMissing →
      env.response pipxPromptMsg ≠ some "Install pipx" →
      (resolveInstallMethod env pythonCmd w).1 = InstallMethod.pipUser) ∧
    (determineInstallMethod env w.sent = InstallMethod.pipxMissing →
      (installPipx env pythonCmd (addMsg w pipxPromptMsg)).1 = false →
      (resolveInstallMethod env pythonCmd w).1 = InstallMethod.pipUser) := by
  refine ⟨resolveInstallMethod_cases env pythonCmd w, ?_, ?_⟩
  · intro hm hr
    simp [resolveInstallMethod, hm, hr]
  · intro hm hp
    by_cases hr : env.response pipxPromptMsg = some "Install pipx"
    · simp [resolveInstallMethod, hm, hr, hp]
    · simp [resolveInstallMethod, hm, hr]

/-- Concrete environment with pipx missing and every prompt dismissed. -/
def envPipDecline : Env :=
  { exec := fun _ _ => .error "fail"
    existsSync := fun _ _ => false
    platform := "linux"
    home := none
    userprofile := none
    response := fun _ => none }

/-- Witness for C9: with pipx missing and the bootstrap declined, the
method in effect is pip --user. -/
theorem installMethod_never_missing_witness :
    (resolveInstallMethod envPipDecline "python3" ⟨[], [], []⟩).1 =
      InstallMethod.pipUser :=
  (installMethod_never_missing envPipDecline "python3" ⟨[], [], []⟩).2.1
    (by decide) (by decide)

/-- C7: with the dismissal flag set, a non-forced call on a missing CLI
shows nothing and returns false; a forced call still shows the install
prompt; and the result and final world of a forced call do not depend on
the stored flag. -/
theorem dismissal_gate (env : Env) (w : World) (d d' : Bool) :
    ((checkCliInstallation env w.sent).installed = false →
      ensureCliInstalled env false true w = (false, true, w)) ∧
    ((checkCliInstallation env w.sent).installed = false →
      installPromptMsg ∈ (ensureCliInstalled env true d w).2.2.msgs) ∧
    ((ensureCliInstalled env true d w).1 = (ensureCliInstalled env true d' w).1 ∧
      (ensureCliInstalled env true d w).2.2 = (ensureCliInstalled env true d' w).2.2) := by
  refine ⟨?_, ?_, ?_⟩
  · intro hni
    unfold ensureCliInstalled
    rw [hni]
    simp
  · intro hni
    unfold ensureCliInstalled
    rw [hni]
    obtain ⟨t, ht⟩ := msgs_extend_ensureNotInstalledFlow env d
      (env.response installPromptMsg) (addMsg w installPromptMsg)
    simp [ht]
  · unfold ensureCliInstalled
    by_cases hc1 : (checkCliInstallation env w.sent).installed &&
        !((checkCliInstallation env w.sent).needsUpgrade.getD false)
    · simp [hc1]
    · by_cases hc2 : (checkCliInstallation env w.sent).installed &&
          (checkCliInstallation env w.sent).needsUpgrade.getD false
      · simp only [hc1, hc2, Bool.false_eq_true, if_false, if_true]
        exact ensureUpgradeFlow_d_indep env _ _ d d'
      · simp only [hc1, hc2, Bool.false_eq_true, if_false, Bool.not_true, Bool.and_false]
        exact ensureNotInstalledFlow_d_indep env _ _ d d'

/-- Concrete environment in which nothing is installed and no prompt is
ever answered. -/
def envGateFail : Env :=
  { exec := fun _ _ => .error "not installed"
    existsSync := fun _ _ => false
    platform := "linux"
    home := none
    userprofile := none
    response := fun _ => none }

/-- Witness for C7: the dismissed gate blocks a non-forced call, while a
forced call still shows the install prompt. -/
theorem dismissal_gate_witness :
    ensureCliInstalled envGateFail false true ⟨[], [], []⟩ = (false, true, ⟨[], [], []⟩) ∧
    installPromptMsg ∈
      (ensureCliInstalled envGateFail true false ⟨[], [], []⟩).2.2.msgs :=
  ⟨(dismissal_gate envGateFail ⟨[], [], []⟩ false false).1 (by decide),
    (dismissal_gate envGateFail ⟨[], [], []⟩ false false).2.1 (by decide)⟩

/-- Concrete environment: CLI installed but outdated, pipx available, and
the pipx upgrade succeeds (the probe reports 0.1.0 once the upgrade
command has been sent to the terminal). -/
def envUpgradeOk : Env :=
  { exec := fun sent c =>
      if c = "zenco --help" || c = "\"zenco\" --help" then
        if sent.contains "pipx upgrade zenco" then .ok "Zenco AI v0.1.0"
        else .ok "Zenco AI v0.0.9"
      else if c = "pipx --version" then .ok "pipx 1.4.0"
      else if c = "python3 --version" then .ok "Python 3.11.1"
      else .error "fail"
    existsSync := fun _ _ => false
    platform := "linux"
    home := none
    userprofile := none
    response := fun m =>
      if m = "Zenco CLI 0.0.9 is outdated. Minimum required: 0.1.0. Upgrade now?" then
        some "Upgrade"
      else if m = verifyPromptMsg then some "Verify Installation"
      else none }

/-- C8 counterexample: an upgrade flow that completes successfully leaves
a previously-set dismissal flag at `true` — the flag is not reset on every
successful install. -/
theorem upgrade_flow_keeps_flag :
    (ensureCliInstalled envUpgradeOk false true ⟨[], [], []⟩).1 = true ∧
    (ensureCliInstalled envUpgradeOk false true ⟨[], [], []⟩).2.1 = true :=
  ⟨by decide, by decide⟩

/-- C8 (amended): the dismissal flag is reset to `false` on a successful
install from the not-installed prompt flow; when the CLI is already
installed (the up-to-date and upgrade branches), the flag is left
unchanged, even by a successful upgrade. -/
theorem install_clears_dismissal (env : Env) (force dismissed : Bool) (w : World) :
    ((checkCliInstallation env w.sent).installed = false →
      (ensureCliInstalled env force dismissed w).1 = true →
      (ensureCliInstalled env force dismissed w).2.1 = false) ∧
    ((checkCliInstallation env w.sent).installed = true →
      (ensureCliInstalled env force dismissed w).2.1 = dismissed) := by
  constructor
  · intro hni
    unfold ensureCliInstalled
    rw [hni]
    simp only [Bool.false_and, Bool.false_eq_true, if_false]
    by_cases hd : dismissed && !force
    · simp [hd]
    · simp only [hd, Bool.false_eq_true, if_false]
      exact ensureNotInstalledFlow_clears env dismissed (env.response installPromptMsg)
        (addMsg w installPromptMsg)
  · intro hin
    unfold ensureCliInstalled
    rw [hin]
    by_cases hup : (checkCliInstallation env w.sent).needsUpgrade.getD false
    · simp only [hup, Bool.true_and, Bool.not_true, Bool.false_eq_true, if_false, if_true]
      exact ensureUpgradeFlow_dismissed env dismissed _ _
    · simp [hup]

/-- Concrete environment: CLI missing, pipx available, and the install
succeeds (the probe reports 0.1.0 once the install command has been sent
to the terminal). -/
def envInstallOk : Env :=
  { exec := fun sent c =>
      if c = "zenco --help" || c = "\"zenco\" --help" then
        if sent.contains "pipx install zenco" then .ok "Zenco AI v0.1.0"
        else .error "not found"
      else if c = "pipx --version" then .ok "pipx 1.4.0"
      else if c = "python3 --version" then .ok "Python 3.11.1"
      else .error "fail"
    existsSync := fun _ _ => false
    platform := "linux"
    home := none
    userprofile := none
    response := fun m =>
      if m = installPromptMsg then some "Install"
      else if m = verifyPromptMsg then some "Verify Installation"
      else none }

/-- Witness for C8: a successful install from the not-installed flow
clears a previously-set dismissal flag. -/
theorem install_clears_dismissal_witness :
    (checkCliInstallation envInstallOk []).installed = false ∧
    (ensureCliInstalled envInstallOk true true ⟨[], [], []⟩).2.1 = false :=
  ⟨by decide,
    (install_clears_dismissal envInstallOk true true ⟨[], [], []⟩).1
      (by decide) (by decide)⟩

/-- C10: in the upgrade branch, a missing Python 3 interpreter makes the
flow show the manual upgrade instructions and return false without
sending any install command — for every environment, including ones where
pipx is available and the pipx upgrade needs no interpreter. -/
theorem upgrade_requires_python (env : Env) (force dismissed : Bool) (w : World)
    (hinst : (checkCliInstallation env w.sent).installed = true)
    (hup : (checkCliInstallation env w.sent).needsUpgrade.getD false = true)
    (hch : env.response (outdatedMsg (checkCliInstallation env w.sent).version) =
      some "Upgrade")
    (hpy : findPython env w.sent = none) :
    ensureCliInstalled env force dismissed w =
      (false, dismissed,
        { sent := w.sent
          msgs := w.msgs ++ [outdatedMsg (checkCliInstallation env w.sent).version]
          docs := w.docs ++ [true] }) := by
  unfold ensureCliInstalled ensureUpgradeFlow
  rw [hinst, hup]
  simp only [Bool.not_true, Bool.and_false, Bool.true_and, Bool.false_eq_true, if_false,
    if_true, addMsg_sent, hch, hpy, if_pos]
  simp [addMsg, showManualInstallInstructions]

/-- Concrete environment: outdated CLI, pipx available, but no Python 3
interpreter anywhere. -/
def envUpNoPython : Env :=
  { exec := fun _ c =>
      if c = "zenco --help" || c = "\"zenco\" --help" then .ok "Zenco AI v0.0.9"
      else if c = "pipx --version" then .ok "pipx 1.4.0"
      else .error "fail"
    existsSync := fun _ _ => false
    platform := "linux"
    home := none
    userprofile := none
    response := fun m =>
      if m = "Zenco CLI 0.0.9 is outdated. Minimum required: 0.1.0. Upgrade now?" then
        some "Upgrade"
      else none }

/-- Witness for C10: with pipx available but Python 3 missing, the upgrade
attempt aborts with manual instructions and no terminal command. -/
theorem upgrade_requires_python_witness :
    (ensureCliInstalled envUpNoPython false false ⟨[], [], []⟩).1 = false ∧
    (ensureCliInstalled envUpNoPython false false ⟨[], [], []⟩).2.2.sent = [] ∧
    (ensureCliInstalled envUpNoPython false false ⟨[], [], []⟩).2.2.docs = [true] := by
  rw [upgrade_requires_python envUpNoPython false false ⟨[], [], []⟩
    (by decide) (by decide) (by decide) (by decide)]
  exact ⟨rfl, rfl, rfl⟩
